import Mathlib

/-!
Verification of the conversational SQL pipeline in `src/app/main.py`
(GemmaTalksDB).  The per-request orchestration (`process_query`) is embedded
as a pure Lean function from an environment (oracle, database executor,
schema snapshot) and a persisted state (response cache, audit log) to a
response, a new state, and an explicit event trace recording every Oracle
call, cache lookup/write, database execution and audit append, in order.
-/

/- ## String utilities mirroring the Python string operations used -/

/-- Python list/str containment helper: does `pat` occur as a leading
segment of the character list? (`str.startswith`, on char lists). -/
def leadsList : List Char → List Char → Bool
  | [], _ => true
  | _ :: _, [] => false
  | p :: ps, c :: cs => p == c && leadsList ps cs

/-- Python `pat in s` (substring containment) scanned left to right. -/
def occursList (pat : List Char) : List Char → Bool
  | [] => leadsList pat []
  | c :: cs => leadsList pat (c :: cs) || occursList pat cs

/-- Python `pat in s` for strings. -/
def strContains (s pat : String) : Bool := occursList pat.data s.data

/-- Python `s.startswith(pat)`. -/
def strStarts (s pat : String) : Bool := leadsList pat.data s.data

/-- Python default whitespace for `str.strip()`: space, tab, newline,
carriage return, vertical tab, form feed. -/
def pyWs (c : Char) : Bool :=
  c == ' ' || c == '\t' || c == '\n' || c == '\r' || c == '\x0b' || c == '\x0c'

/-- Python `s.strip()` (ASCII whitespace; the pipeline only strips
oracle answers, which are considered ASCII here). -/
def pyStrip (s : String) : String :=
  String.mk (((s.data.dropWhile pyWs).reverse.dropWhile pyWs).reverse)

/-- ASCII uppercasing of one character, as Python `str.upper()` acts on
the ASCII range (the pipeline's sentinels `NO` / `CLARIFY:` are ASCII). -/
def upChar (c : Char) : Char :=
  if 'a' ≤ c ∧ c ≤ 'z' then Char.ofNat (c.toNat - 32) else c

/-- Python `s.upper()` restricted to ASCII. -/
def pyUpper (s : String) : String := String.mk (s.data.map upChar)

/-- Python slicing `s[n:]` (by code points). -/
def strDrop (s : String) (n : Nat) : String := String.mk (s.data.drop n)

/-- Python `s.rstrip(';')`: removes ALL trailing semicolons. -/
def rstripSemis (s : String) : String :=
  String.mk ((s.data.reverse.dropWhile (fun c => c == ';')).reverse)

/-- Python `sep.join(xs)`. -/
def sepJoin (sep : String) : List String → String
  | [] => ""
  | [x] => x
  | x :: y :: rest => x ++ sep ++ sepJoin sep (y :: rest)

/- ## A JSON value model (for `json.dumps` / `json.loads` and turn content) -/

/-- JSON values.  Numbers keep their source text (the pipeline never
computes with them); objects keep insertion order like Python dicts. -/
inductive Json where
  | null
  | bool (b : Bool)
  | num (raw : String)
  | str (s : String)
  | arr (xs : List Json)
  | obj (fields : List (String × Json))

/-- Double-quote character. -/
def qc : Char := '\x22'
/-- Backslash character. -/
def bsl : Char := '\x5c'
/-- Opening curly brace character. -/
def lbr : Char := '\x7b'
/-- Closing curly brace character. -/
def rbr : Char := '\x7d'

/-- `json.dumps` escaping for one character inside a string literal
(the common cases; `ensure_ascii` escaping of non-ASCII is out of scope
for the ASCII data handled here). -/
def escJsonChar (c : Char) : String :=
  if c == qc then String.mk [bsl, qc]
  else if c == bsl then String.mk [bsl, bsl]
  else if c == '\n' then String.mk [bsl, 'n']
  else if c == '\t' then String.mk [bsl, 't']
  else if c == '\r' then String.mk [bsl, 'r']
  else String.singleton c

/-- `json.dumps` rendering of a string literal. -/
def dumpsStr (s : String) : String :=
  String.singleton qc ++ String.join (s.data.map escJsonChar) ++ String.singleton qc

mutual
/-- `json.dumps(v)` with the default separators `", "` and `": "`,
as used for the cache key serialization and the conversation log. -/
def jsonDumps : Json → String
  | Json.null => "null"
  | Json.bool b => if b then "true" else "false"
  | Json.num raw => raw
  | Json.str s => dumpsStr s
  | Json.arr xs => "[" ++ dumpsList xs ++ "]"
  | Json.obj fs => String.singleton lbr ++ dumpsFields fs ++ String.singleton rbr

/-- `json.dumps` of array elements, comma separated. -/
def dumpsList : List Json → String
  | [] => ""
  | [x] => jsonDumps x
  | x :: y :: rest => jsonDumps x ++ ", " ++ dumpsList (y :: rest)

/-- `json.dumps` of object members, comma separated. -/
def dumpsFields : List (String × Json) → String
  | [] => ""
  | [(k, v)] => dumpsStr k ++ ": " ++ jsonDumps v
  | (k, v) :: f :: rest => dumpsStr k ++ ": " ++ jsonDumps v ++ ", " ++ dumpsFields (f :: rest)
end

mutual
/-- Python `str()` / `repr()` of a parsed-JSON-like value, as an f-string
renders a `dict` (single-quoted strings, capitalized `True`/`False`/`None`). -/
def pyRepr : Json → String
  | Json.null => "None"
  | Json.bool b => if b then "True" else "False"
  | Json.num raw => raw
  | Json.str s => "'" ++ s ++ "'"
  | Json.arr xs => "[" ++ pyReprList xs ++ "]"
  | Json.obj fs => String.singleton lbr ++ pyReprFields fs ++ String.singleton rbr

/-- `repr` of list elements, comma separated. -/
def pyReprList : List Json → String
  | [] => ""
  | [x] => pyRepr x
  | x :: y :: rest => pyRepr x ++ ", " ++ pyReprList (y :: rest)

/-- `repr` of dict members, comma separated. -/
def pyReprFields : List (String × Json) → String
  | [] => ""
  | [(k, v)] => "'" ++ k ++ "': " ++ pyRepr v
  | (k, v) :: f :: rest => "'" ++ k ++ "': " ++ pyRepr v ++ ", " ++ pyReprFields (f :: rest)
end

/-- Python dict key membership `k in d`. -/
def jsonHasKey (j : Json) (k : String) : Bool :=
  match j with
  | Json.obj fs => fs.any (fun kv => kv.1 == k)
  | _ => false

/-- Python dict subscription `d[k]` (defaulting to `null`; the pipeline
only subscripts keys it has checked for membership). -/
def jsonGet (j : Json) (k : String) : Json :=
  match j with
  | Json.obj fs => ((fs.find? (fun kv => kv.1 == k)).map (fun kv => kv.2)).getD Json.null
  | _ => Json.null

/- ## `json.loads` model (strict JSON parser, plus Python's NaN/Infinity) -/

/-- JSON structural whitespace accepted by `json.loads`. -/
def jsonWsChar (c : Char) : Bool :=
  c == ' ' || c == '\t' || c == '\n' || c == '\r'

/-- Skip JSON structural whitespace. -/
def skipWs (cs : List Char) : List Char := cs.dropWhile jsonWsChar

/-- Hexadecimal digit value, for `\uXXXX` escapes. -/
def hexVal (c : Char) : Option Nat :=
  if '0' ≤ c ∧ c ≤ '9' then some (c.toNat - 48)
  else if 'a' ≤ c ∧ c ≤ 'f' then some (c.toNat - 87)
  else if 'A' ≤ c ∧ c ≤ 'F' then some (c.toNat - 55)
  else none

/-- Parse the body of a JSON string literal after the opening quote
(strict mode: raw control characters are rejected, escapes decoded). -/
def parseStringBody : List Char → Option (List Char × List Char)
  | [] => none
  | c :: rest =>
    if c == qc then some ([], rest)
    else if c == bsl then
      match rest with
      | [] => none
      | e :: rest2 =>
        if e == qc then (parseStringBody rest2).map (fun p => (qc :: p.1, p.2))
        else if e == bsl then (parseStringBody rest2).map (fun p => (bsl :: p.1, p.2))
        else if e == '/' then (parseStringBody rest2).map (fun p => ('/' :: p.1, p.2))
        else if e == 'b' then (parseStringBody rest2).map (fun p => ('\x08' :: p.1, p.2))
        else if e == 'f' then (parseStringBody rest2).map (fun p => ('\x0c' :: p.1, p.2))
        else if e == 'n' then (parseStringBody rest2).map (fun p => ('\n' :: p.1, p.2))
        else if e == 'r' then (parseStringBody rest2).map (fun p => ('\r' :: p.1, p.2))
        else if e == 't' then (parseStringBody rest2).map (fun p => ('\t' :: p.1, p.2))
        else if e == 'u' then
          match rest2 with
          | h1 :: h2 :: h3 :: h4 :: rest3 =>
            match hexVal h1, hexVal h2, hexVal h3, hexVal h4 with
            | some a, some b, some c2, some d =>
              (parseStringBody rest3).map
                (fun p => (Char.ofNat (((a * 16 + b) * 16 + c2) * 16 + d) :: p.1, p.2))
            | _, _, _, _ => none
          | _ => none
        else none
    else if c.toNat < 32 then none
    else (parseStringBody rest).map (fun p => (c :: p.1, p.2))

/-- Longest digit run and the remainder. -/
def takeDigits (cs : List Char) : List Char × List Char :=
  (cs.takeWhile Char.isDigit, cs.dropWhile Char.isDigit)

/-- Parse a JSON number (sign, integer part without leading zeros,
optional fraction, optional exponent), keeping its source text. -/
def parseNumber (cs : List Char) : Option (List Char × List Char) :=
  let signed := match cs with
    | c :: r => if c == '-' then some ([c], r) else some ([], cs)
    | [] => none
  match signed with
  | none => none
  | some (sgn, cs1) =>
    match cs1 with
    | [] => none
    | d :: r =>
      let intPart :=
        if d == '0' then some ([d], r)
        else if d.isDigit then
          let (ds, r2) := takeDigits r
          some (d :: ds, r2)
        else none
      match intPart with
      | none => none
      | some (ip, rest1) =>
        let fracPart :=
          match rest1 with
          | p :: r3 =>
            if p == '.' then
              let (ds, r4) := takeDigits r3
              if ds.isEmpty then none else some (p :: ds, r4)
            else some ([], rest1)
          | [] => some ([], rest1)
        match fracPart with
        | none => none
        | some (fp, rest2) =>
          let expPart :=
            match rest2 with
            | e :: r5 =>
              if e == 'e' || e == 'E' then
                let (sgn2, r6) := match r5 with
                  | s :: r7 => if s == '+' || s == '-' then ([s], r7) else ([], r5)
                  | [] => ([], r5)
                let (ds, r8) := takeDigits r6
                if ds.isEmpty then none else some (e :: (sgn2 ++ ds), r8)
              else some ([], rest2)
            | [] => some ([], rest2)
          match expPart with
          | none => none
          | some (ep, rest3) => some (sgn ++ ip ++ fp ++ ep, rest3)

/-- Insert or update one key of an object under construction, keeping the
first occurrence's position like a Python dict. -/
def setField : List (String × Json) → String → Json → List (String × Json)
  | [], k, v => [(k, v)]
  | (k0, v0) :: rest, k, v =>
    if k0 == k then (k0, v) :: rest else (k0, v0) :: setField rest k v

/-- Collapse duplicate object keys the way Python dict construction does. -/
def buildObj (pairs : List (String × Json)) : List (String × Json) :=
  pairs.foldl (fun acc kv => setField acc kv.1 kv.2) []

mutual
/-- Parse one JSON value (fuel-bounded recursive descent; the fuel chosen
in `parseJson` always suffices). -/
def parseValue : Nat → List Char → Option (Json × List Char)
  | 0, _ => none
  | Nat.succ fuel, cs0 =>
    let cs := skipWs cs0
    match cs with
    | [] => none
    | c :: rest =>
      if c == qc then
        (parseStringBody rest).map (fun p => (Json.str (String.mk p.1), p.2))
      else if c == lbr then
        match skipWs rest with
        | d :: rest2 =>
          if d == rbr then some (Json.obj [], rest2)
          else (parseFields fuel (d :: rest2)).map (fun p => (Json.obj (buildObj p.1), p.2))
        | [] => none
      else if c == '[' then
        match skipWs rest with
        | d :: rest2 =>
          if d == ']' then some (Json.arr [], rest2)
          else (parseElems fuel (d :: rest2)).map (fun p => (Json.arr p.1, p.2))
        | [] => none
      else if leadsList ['t', 'r', 'u', 'e'] cs then some (Json.bool true, cs.drop 4)
      else if leadsList ['f', 'a', 'l', 's', 'e'] cs then some (Json.bool false, cs.drop 5)
      else if leadsList ['n', 'u', 'l', 'l'] cs then some (Json.null, cs.drop 4)
      else if leadsList ['N', 'a', 'N'] cs then some (Json.num "NaN", cs.drop 3)
      else if leadsList ['I', 'n', 'f', 'i', 'n', 'i', 't', 'y'] cs then
        some (Json.num "Infinity", cs.drop 8)
      else if leadsList ['-', 'I', 'n', 'f', 'i', 'n', 'i', 't', 'y'] cs then
        some (Json.num "-Infinity", cs.drop 9)
      else (parseNumber cs).map (fun p => (Json.num (String.mk p.1), p.2))

/-- Parse the elements of a non-empty JSON array after the opening bracket. -/
def parseElems : Nat → List Char → Option (List Json × List Char)
  | 0, _ => none
  | Nat.succ fuel, cs =>
    match parseValue fuel cs with
    | none => none
    | some (j, rest) =>
      match skipWs rest with
      | c :: rest2 =>
        if c == ',' then (parseElems fuel rest2).map (fun p => (j :: p.1, p.2))
        else if c == ']' then some ([j], rest2)
        else none
      | [] => none

/-- Parse the members of a non-empty JSON object after the opening brace. -/
def parseFields : Nat → List Char → Option (List (String × Json) × List Char)
  | 0, _ => none
  | Nat.succ fuel, cs =>
    match skipWs cs with
    | c :: rest =>
      if c == qc then
        match parseStringBody rest with
        | none => none
        | some (kcs, rest2) =>
          match skipWs rest2 with
          | d :: rest3 =>
            if d == ':' then
              match parseValue fuel rest3 with
              | none => none
              | some (v, rest4) =>
                match skipWs rest4 with
                | e :: rest5 =>
                  if e == ',' then
                    (parseFields fuel rest5).map (fun p => ((String.mk kcs, v) :: p.1, p.2))
                  else if e == rbr then some ([(String.mk kcs, v)], rest5)
                  else none
                | [] => none
            else none
          | [] => none
      else none
    | [] => none
end

/-- `json.loads(s)`: parse one value and require only whitespace after it. -/
def parseJson (s : String) : Option Json :=
  match parseValue (2 * s.data.length + 16) s.data with
  | some (j, rest) => if (skipWs rest).isEmpty then some j else none
  | none => none

/- ## SqlExtractor: the fenced-code-block regex and terminator stripping -/

/-- Backtick character. -/
def tick : Char := '\x60'

/-- Does a triple backtick occur anywhere in the character list? -/
def hasTick3 : List Char → Bool
  | a :: b :: c :: rest => (a = tick ∧ b = tick ∧ c = tick) || hasTick3 (b :: c :: rest)
  | _ => false

/-- Characters before the first triple backtick (everything, if none). -/
def takeTo3 : List Char → List Char
  | a :: b :: c :: rest =>
    if a = tick ∧ b = tick ∧ c = tick then [] else a :: takeTo3 (b :: c :: rest)
  | short => short

/-- The optional literal `sql` tag right after the opening fence
(the regex fragment matching `sql` greedily when present). -/
def dropSqlTag : List Char → List Char
  | 's' :: 'q' :: 'l' :: rest => rest
  | cs => cs

/-- Leftmost match of the Python regex used in `process_query` to pull a
fenced code block out of the oracle text (triple backtick, optional `sql`
tag, lazily matched body, closing triple backtick, `DOTALL`), returning
the captured group up to the closing fence.  The scan advances one
character at a time exactly like the regex engine's bump-along loop. -/
def findFenceAux : List Char → Option (List Char)
  | a :: b :: c :: rest =>
    if a = tick ∧ b = tick ∧ c = tick then
      let t := dropSqlTag rest
      if hasTick3 t then some (takeTo3 t) else findFenceAux (b :: c :: rest)
    else findFenceAux (b :: c :: rest)
  | _ => none

/-- The SQL candidate extraction of `process_query`:
`(sql_match.group(1).strip() if sql_match else response_text).rstrip(';')`.
The surrounding whitespace the regex assigns to its greedy fragments is
absorbed here by the `strip()` applied to the captured group. -/
def extractSql (text : String) : String :=
  match findFenceAux text.data with
  | some inner => rstripSemis (pyStrip (String.mk inner))
  | none => rstripSemis text

/- ## Data model of the pipeline -/

/-- One result row, as the executor's `dict(record)` image. -/
abbrev Row := List (String × Json)

/-- One conversation turn: `role` plus `content: Union[str, Dict[str, Any]]`. -/
inductive Content where
  | str (s : String)
  | obj (j : Json)

/-- A `Turn` of the request body. -/
structure Turn where
  role : String
  content : Content

/-- One row of the append-only `query_log` audit table. -/
structure AuditRecord where
  question : String
  sqlQuery : String
  success : Bool
  errorMessage : String

/-- The cached/terminal success payload (`final_response` in the source). -/
structure SuccessPayload where
  question : String
  sqlQuery : String
  explanation : String
  result : List Row
  chartSpec : Json

/-- The persisted stores: the `llm_cache` table and the `query_log` table. -/
structure PipelineState where
  cache : List (String × SuccessPayload)
  audit : List AuditRecord

/-- External collaborators and the startup-time schema snapshot.
`oracle` is `call_gemini` (a total function: that wrapper already encodes
failures as `GEMINI_API_ERROR:`/`GEMINI_SAFETY_ERROR:` strings); `dbExec`
is the pooled prepare-and-fetch, with `asyncpg.PostgresError` as `error`. -/
structure Env where
  oracle : String → String
  dbExec : String → Except String (List Row)
  schema : String
  hints : String

/-- Observable effects of one request, in execution order. -/
inductive Event where
  | oracleCall (prompt : String)
  | cacheLookup (key : String)
  | cacheWrite (key : String)
  | dbExec (sql : String)
  | auditAppend (record : AuditRecord)

/-- The wire-level outcome of one request: each terminal return or raised
`HTTPException` of `process_query`, plus the unhandled `IndexError` that
`request.history[-1]` raises on an empty history. -/
inductive Resp where
  | pyIndexError
  | httpError (status : Nat) (detail : String)
  | offTopic (message : String)
  | clarification (question : String)
  | errorFix (error suggestedFix : String)
  | noResultsExplanation (text : String)
  | success (payload : SuccessPayload)

/- ## Persisted store operations -/

/-- `get_from_cache`: `SELECT response FROM llm_cache WHERE key = ?`. -/
def getFromCache (cache : List (String × SuccessPayload)) (key : String) :
    Option SuccessPayload :=
  (cache.find? (fun kv => kv.1 == key)).map (fun kv => kv.2)

/-- `set_to_cache`: `INSERT OR REPLACE INTO llm_cache`. -/
def setToCache (cache : List (String × SuccessPayload)) (key : String)
    (v : SuccessPayload) : List (String × SuccessPayload) :=
  (key, v) :: cache.filter (fun kv => kv.1 != key)

/-- `hashlib.sha256(...).hexdigest()`, abstracted as the identity encoding:
the pipeline only ever compares digests of equal/unequal strings for
equality, so a collision-free stand-in preserves its behaviour. -/
def sha256Hex (s : String) : String := s

/-- `turn.dict()` as a JSON value. -/
def turnJson (t : Turn) : Json :=
  Json.obj [("role", Json.str t.role),
            ("content", match t.content with
                        | Content.str s => Json.str s
                        | Content.obj j => j)]

/-- `json.dumps([turn.dict() for turn in request.history], ...)`. -/
def historyStr (h : List Turn) : String :=
  jsonDumps (Json.arr (h.map turnJson))

/-- `DB_SCHEMA_HASH`, computed once at startup over schema plus hints. -/
def schemaHashOf (env : Env) : String := sha256Hex (env.schema ++ env.hints)

/-- `cache_key_hash = sha256(history_str + DB_SCHEMA_HASH)`. -/
def cacheKey (env : Env) (h : List Turn) : String :=
  sha256Hex (historyStr h ++ schemaHashOf env)

/- ## PromptBuilder -/

/-- `generate_relevance_prompt`. -/
def relevancePrompt (schema question : String) : String :=
  "Is the following question related to a database with this schema? Schema: "
    ++ schema ++ "\nQuestion: " ++ question ++ "\nAnswer ONLY 'YES' or 'NO'."

/-- `generate_no_results_prompt`. -/
def noResultsPrompt (question sqlQuery : String) : String :=
  "The user asked: '" ++ question ++ "'. The query `" ++ sqlQuery
    ++ "` returned no rows. In one friendly sentence, explain why. Example: 'It appears there are no records matching your criteria.' Respond ONLY with the sentence."

/-- The inline repair prompt built on a database error. -/
def fixPrompt (sqlQuery errorMessage question schema : String) : String :=
  "The SQL query `" ++ sqlQuery ++ "` failed with the error: `" ++ errorMessage
    ++ "`. Based on the question: `" ++ question ++ "` and schema: `" ++ schema
    ++ "`, provide a corrected SQL query. Respond ONLY with the SQL."

/-- The inline one-sentence explanation prompt of the enrichment stage. -/
def explainPrompt (sqlQuery : String) : String :=
  "Explain this SQL query in one simple sentence: `" ++ sqlQuery ++ "`"

/-- Python `repr` of a list of strings, as an f-string renders
`list(results[0].keys())`. -/
def pyStrListRepr (keys : List String) : String :=
  "[" ++ sepJoin ", " (keys.map (fun k => "'" ++ k ++ "'")) ++ "]"

/-- `list(results[0].keys()) if results else []`. -/
def keysOf (results : List Row) : List String :=
  match results with
  | [] => []
  | r :: _ => r.map (fun kv => kv.1)

/-- The inline visualization prompt of the enrichment stage. -/
def vizPrompt (question : String) (keys : List String) : String :=
  "Given the question: '" ++ question ++ "' and data columns: "
    ++ pyStrListRepr keys
    ++ ", should this be a chart? If yes, suggest a chart type (bar, line, pie) and columns for x/y axes. Respond ONLY with a valid JSON object like \x7b\"chart_needed\": true, \"chart_type\": \"bar\", \"x_column\": \"name\", \"y_column\": \"salary\"\x7d or \x7b\"chart_needed\": false\x7d."

/-- An f-string rendering of a turn's content (`str` verbatim, a dict via
Python `str()`). -/
def renderContent : Content → String
  | Content.str s => s
  | Content.obj j => pyRepr j

/-- Keep a history turn in the rendered conversation log?  The source
filter: `turn.role == 'user' or (isinstance(turn.content, dict) and
'result' in turn.content)`. -/
def keepTurn (t : Turn) : Bool :=
  t.role == "user" ||
    (match t.content with
     | Content.obj j => jsonHasKey j "result"
     | Content.str _ => false)

/-- Rendering of one kept turn of the conversation log. -/
def renderTurn (t : Turn) : String :=
  if t.role == "user" then "User: " ++ renderContent t.content
  else
    "Assistant (Result): " ++
      (match t.content with
       | Content.obj j => jsonDumps (jsonGet j "result")
       | Content.str _ => "")

/-- `conversation_log` of `generate_sql_prompt`: every turn but the last,
filtered and rendered, newline separated. -/
def conversationLog (history : List Turn) : String :=
  sepJoin "\n" (((history.dropLast).filter keepTurn).map renderTurn)

/-- `generate_sql_prompt(schema, hints, history)`. -/
def generateSqlPrompt (schema hints : String) (history : List Turn) : String :=
  let conv := conversationLog history
  let lastQuestion :=
    match history.getLast? with
    | some t => renderContent t.content
    | none => ""
  "You are a programmatic SQL-only generator. Your sole purpose is to produce a single, valid PostgreSQL query based on the user's request, or to ask a clarifying question.\n\n**TASK:** Analyze the user's final question, considering the database schema, value hints, and conversation history.\n\n**DATABASE SCHEMA:**\n"
    ++ schema
    ++ "\n\n**HINTS ON COLUMN VALUES:**\n"
    ++ (if hints = "" then "No hints available." else hints)
    ++ "\n\n**CONVERSATION HISTORY:**\n"
    ++ (if conv = "" then "No previous conversation." else conv)
    ++ "\n\n**USER'S FINAL QUESTION:**\n"
    ++ lastQuestion
    ++ "\n\n**RESPONSE INSTRUCTIONS (Follow these strictly):**\n1.  If the user's request is clear, you MUST respond with only the raw SQL query. DO NOT include any other text, explanations, or formatting like quotes or markdown backticks (`\"`, ```).\n2.  If the user's request is ambiguous (e.g., \"show sales\"), you MUST respond with only a clarifying question, prefixed with `CLARIFY:`.\n3.  If the request requires a calculation (e.g., \"total\", \"average\"), you MUST use the correct SQL aggregate function (`SUM`, `AVG`, `COUNT`, etc.).\n\n**OUTPUT (SQL or CLARIFY only):**\n"

/-- The in-band failure markers of `call_gemini`, tested by substring
containment on the raw oracle answer. -/
def geminiError (response : String) : Bool :=
  strContains response "GEMINI_API_ERROR" || strContains response "GEMINI_SAFETY_ERROR"

/-- The enrichment chart-spec decoding:
`json.loads(viz_response.strip())`, with a `JSONDecodeError` silently
replaced by `{"chart_needed": False}`.  Any successfully parsed JSON value
is kept as is (no shape validation happens in the source). -/
def chartSpecOf (vizResponse : String) : Json :=
  match parseJson (pyStrip vizResponse) with
  | some j => j
  | none => Json.obj [("chart_needed", Json.bool false)]

/- ## The Orchestrator: `process_query` -/

/-- The response body of the off-topic short circuit. -/
def offTopicMsg : String := "That question does not seem to be about the database."

/-- The per-request pipeline of `process_query` (src/app/main.py, lines
210-283): last-turn validation, relevance gate, cache lookup, synthesis
with the `CLARIFY:` sentinel, execution with audit logging and one-shot
repair suggestion, no-results explanation, enrichment, cache write.
Returns the terminal response, the new persisted state and the trace of
Oracle/database/store effects in execution order. -/
def processQuery (env : Env) (st : PipelineState) (history : List Turn) :
    Resp × PipelineState × List Event :=
  match history.getLast? with
  | none => (Resp.pyIndexError, st, [])
  | some lastTurn =>
    match lastTurn.content with
    | Content.obj _ => (Resp.httpError 400 "Invalid question format.", st, [])
    | Content.str lastQuestion =>
      let relPromptS := relevancePrompt env.schema lastQuestion
      let relResponse := env.oracle relPromptS
      if geminiError relResponse = true then
        (Resp.httpError 503 relResponse, st, [Event.oracleCall relPromptS])
      else if strContains (pyUpper (pyStrip relResponse)) "NO" = true then
        (Resp.offTopic offTopicMsg, st, [Event.oracleCall relPromptS])
      else
        let key := cacheKey env history
        match getFromCache st.cache key with
        | some cached =>
          (Resp.success cached, st, [Event.oracleCall relPromptS, Event.cacheLookup key])
        | none =>
          let sqlPromptS := generateSqlPrompt env.schema env.hints history
          let responseText := env.oracle sqlPromptS
          let ev2 := [Event.oracleCall relPromptS, Event.cacheLookup key,
                      Event.oracleCall sqlPromptS]
          if geminiError responseText = true then
            (Resp.httpError 503 responseText, st, ev2)
          else if strStarts (pyUpper (pyStrip responseText)) "CLARIFY:" = true then
            (Resp.clarification (pyStrip (strDrop responseText 8)), st, ev2)
          else
            let sqlQuery := extractSql responseText
            match env.dbExec sqlQuery with
            | Except.error errorMessage =>
              let record : AuditRecord :=
                ⟨lastQuestion, sqlQuery, false, errorMessage⟩
              let fixPromptS := fixPrompt sqlQuery errorMessage lastQuestion env.schema
              (Resp.errorFix errorMessage (env.oracle fixPromptS),
               ⟨st.cache, st.audit ++ [record]⟩,
               ev2 ++ [Event.dbExec sqlQuery, Event.auditAppend record,
                       Event.oracleCall fixPromptS])
            | Except.ok results =>
              let record : AuditRecord := ⟨lastQuestion, sqlQuery, true, ""⟩
              let ev4 := ev2 ++ [Event.dbExec sqlQuery, Event.auditAppend record]
              match results with
              | [] =>
                let nrPromptS := noResultsPrompt lastQuestion sqlQuery
                (Resp.noResultsExplanation (env.oracle nrPromptS),
                 ⟨st.cache, st.audit ++ [record]⟩,
                 ev4 ++ [Event.oracleCall nrPromptS])
              | r :: rest =>
                let explainPromptS := explainPrompt sqlQuery
                let explanation := env.oracle explainPromptS
                let vizPromptS := vizPrompt lastQuestion (keysOf (r :: rest))
                let chartSpec := chartSpecOf (env.oracle vizPromptS)
                let payload : SuccessPayload :=
                  ⟨lastQuestion, sqlQuery, explanation, r :: rest, chartSpec⟩
                (Resp.success payload,
                 ⟨setToCache st.cache key payload, st.audit ++ [record]⟩,
                 ev4 ++ [Event.oracleCall explainPromptS, Event.oracleCall vizPromptS,
                         Event.cacheWrite key])

/- ## Derived accessors over a request (used to state the properties) -/

/-- The last turn's content when it is a string (the `last_question`). -/
def lastQuestionOf (h : List Turn) : String :=
  match h.getLast? with
  | some t =>
    match t.content with
    | Content.str q => q
    | Content.obj _ => ""
  | none => ""

/-- The request passes the input validation: the history is non-empty and
the last turn's content is a string. -/
def lastIsStr (h : List Turn) : Prop :=
  ∃ t, h.getLast? = some t ∧ t.content = Content.str (lastQuestionOf h)

/-- The relevance prompt of a request. -/
def relPromptOf (env : Env) (h : List Turn) : String :=
  relevancePrompt env.schema (lastQuestionOf h)

/-- The oracle's relevance answer for a request. -/
def relAnswerOf (env : Env) (h : List Turn) : String :=
  env.oracle (relPromptOf env h)

/-- The relevance gate lets the request through: the answer has no
Gemini failure marker and its normalized text does not contain `NO`. -/
def relevanceOk (env : Env) (h : List Turn) : Prop :=
  geminiError (relAnswerOf env h) = false ∧
    strContains (pyUpper (pyStrip (relAnswerOf env h))) "NO" = false

/-- Input validation and the relevance gate both pass. -/
def gatesPass (env : Env) (h : List Turn) : Prop :=
  lastIsStr h ∧ relevanceOk env h

/-- The synthesis prompt of a request. -/
def synthPromptOf (env : Env) (h : List Turn) : String :=
  generateSqlPrompt env.schema env.hints h

/-- The oracle's synthesis answer for a request. -/
def synthTextOf (env : Env) (h : List Turn) : String :=
  env.oracle (synthPromptOf env h)

/-- Does the synthesis answer decode to a clarification request? -/
def isClarifyOf (env : Env) (h : List Turn) : Bool :=
  strStarts (pyUpper (pyStrip (synthTextOf env h))) "CLARIFY:"

/-- The SQL candidate a request would execute. -/
def sqlOf (env : Env) (h : List Turn) : String :=
  extractSql (synthTextOf env h)

/-- Number of Oracle calls in a trace. -/
def oracleCalls (tr : List Event) : Nat :=
  (tr.filter (fun e => match e with | Event.oracleCall _ => true | _ => false)).length

/-- Number of database executions in a trace. -/
def dbCalls (tr : List Event) : Nat :=
  (tr.filter (fun e => match e with | Event.dbExec _ => true | _ => false)).length

/-- Is the response an `OffTopic` or `Clarification` short circuit? -/
def isShortCircuit : Resp → Bool
  | Resp.offTopic _ => true
  | Resp.clarification _ => true
  | _ => false

/-- Is the event a write to a persisted store (cache write or audit append)? -/
def isWriteEvent : Event → Bool
  | Event.cacheWrite _ => true
  | Event.auditAppend _ => true
  | _ => false

/- ## Store lemmas -/

/-- A fresh upsert is immediately visible to `get_from_cache`. -/
theorem getFromCache_setToCache (cache : List (String × SuccessPayload))
    (key : String) (v : SuccessPayload) :
    getFromCache (setToCache cache key v) key = some v := by
  simp [getFromCache, setToCache, List.find?]

/-- Cache-hit characterization: when validation and the relevance gate
pass and the key is present, the stored payload is returned verbatim with
the state unchanged, after one Oracle call and one cache lookup. -/
theorem pq_hit (env : Env) (st : PipelineState) (h : List Turn) (p : SuccessPayload)
    (hg : gatesPass env h)
    (hc : getFromCache st.cache (cacheKey env h) = some p) :
    processQuery env st h =
      (Resp.success p, st,
       [Event.oracleCall (relPromptOf env h), Event.cacheLookup (cacheKey env h)]) := by
  obtain ⟨⟨t, hl, hcs⟩, hge, hno⟩ := hg
  simp only [relAnswerOf, relPromptOf] at hge hno
  simp [processQuery, hl, hcs, hge, hno, hc, relPromptOf]

/-- Exhaustive branch enumeration of `process_query`: every request falls
into exactly one of the ten terminal shapes, with its branch conditions,
response, state update and full event trace. -/
theorem pq_cases (env : Env) (st : PipelineState) (h : List Turn) :
    (h.getLast? = none ∧ processQuery env st h = (Resp.pyIndexError, st, []))
  ∨ (∃ t j, h.getLast? = some t ∧ t.content = Content.obj j ∧
      processQuery env st h = (Resp.httpError 400 "Invalid question format.", st, []))
  ∨ (lastIsStr h ∧ geminiError (relAnswerOf env h) = true ∧
      processQuery env st h =
        (Resp.httpError 503 (relAnswerOf env h), st, [Event.oracleCall (relPromptOf env h)]))
  ∨ (lastIsStr h ∧ geminiError (relAnswerOf env h) = false ∧
      strContains (pyUpper (pyStrip (relAnswerOf env h))) "NO" = true ∧
      processQuery env st h =
        (Resp.offTopic offTopicMsg, st, [Event.oracleCall (relPromptOf env h)]))
  ∨ (gatesPass env h ∧ (∃ c, getFromCache st.cache (cacheKey env h) = some c ∧
      processQuery env st h =
        (Resp.success c, st,
         [Event.oracleCall (relPromptOf env h), Event.cacheLookup (cacheKey env h)])))
  ∨ (gatesPass env h ∧ getFromCache st.cache (cacheKey env h) = none ∧
      geminiError (synthTextOf env h) = true ∧
      processQuery env st h =
        (Resp.httpError 503 (synthTextOf env h), st,
         [Event.oracleCall (relPromptOf env h), Event.cacheLookup (cacheKey env h),
          Event.oracleCall (synthPromptOf env h)]))
  ∨ (gatesPass env h ∧ getFromCache st.cache (cacheKey env h) = none ∧
      geminiError (synthTextOf env h) = false ∧ isClarifyOf env h = true ∧
      processQuery env st h =
        (Resp.clarification (pyStrip (strDrop (synthTextOf env h) 8)), st,
         [Event.oracleCall (relPromptOf env h), Event.cacheLookup (cacheKey env h),
          Event.oracleCall (synthPromptOf env h)]))
  ∨ (gatesPass env h ∧ getFromCache st.cache (cacheKey env h) = none ∧
      geminiError (synthTextOf env h) = false ∧ isClarifyOf env h = false ∧
      (∃ e, env.dbExec (sqlOf env h) = Except.error e ∧
        processQuery env st h =
          (Resp.errorFix e (env.oracle (fixPrompt (sqlOf env h) e (lastQuestionOf h) env.schema)),
           ⟨st.cache, st.audit ++ [⟨lastQuestionOf h, sqlOf env h, false, e⟩]⟩,
           [Event.oracleCall (relPromptOf env h), Event.cacheLookup (cacheKey env h),
            Event.oracleCall (synthPromptOf env h), Event.dbExec (sqlOf env h),
            Event.auditAppend ⟨lastQuestionOf h, sqlOf env h, false, e⟩,
            Event.oracleCall (fixPrompt (sqlOf env h) e (lastQuestionOf h) env.schema)])))
  ∨ (gatesPass env h ∧ getFromCache st.cache (cacheKey env h) = none ∧
      geminiError (synthTextOf env h) = false ∧ isClarifyOf env h = false ∧
      env.dbExec (sqlOf env h) = Except.ok [] ∧
      processQuery env st h =
        (Resp.noResultsExplanation
           (env.oracle (noResultsPrompt (lastQuestionOf h) (sqlOf env h))),
         ⟨st.cache, st.audit ++ [⟨lastQuestionOf h, sqlOf env h, true, ""⟩]⟩,
         [Event.oracleCall (relPromptOf env h), Event.cacheLookup (cacheKey env h),
          Event.oracleCall (synthPromptOf env h), Event.dbExec (sqlOf env h),
          Event.auditAppend ⟨lastQuestionOf h, sqlOf env h, true, ""⟩,
          Event.oracleCall (noResultsPrompt (lastQuestionOf h) (sqlOf env h))]))
  ∨ (gatesPass env h ∧ getFromCache st.cache (cacheKey env h) = none ∧
      geminiError (synthTextOf env h) = false ∧ isClarifyOf env h = false ∧
      (∃ r rest, env.dbExec (sqlOf env h) = Except.ok (r :: rest) ∧
        processQuery env st h =
          (Resp.success
             ⟨lastQuestionOf h, sqlOf env h,
              env.oracle (explainPrompt (sqlOf env h)), r :: rest,
              chartSpecOf (env.oracle (vizPrompt (lastQuestionOf h) (keysOf (r :: rest))))⟩,
           ⟨setToCache st.cache (cacheKey env h)
              ⟨lastQuestionOf h, sqlOf env h,
               env.oracle (explainPrompt (sqlOf env h)), r :: rest,
               chartSpecOf (env.oracle (vizPrompt (lastQuestionOf h) (keysOf (r :: rest))))⟩,
            st.audit ++ [⟨lastQuestionOf h, sqlOf env h, true, ""⟩]⟩,
           [Event.oracleCall (relPromptOf env h), Event.cacheLookup (cacheKey env h),
            Event.oracleCall (synthPromptOf env h), Event.dbExec (sqlOf env h),
            Event.auditAppend ⟨lastQuestionOf h, sqlOf env h, true, ""⟩,
            Event.oracleCall (explainPrompt (sqlOf env h)),
            Event.oracleCall (vizPrompt (lastQuestionOf h) (keysOf (r :: rest))),
            Event.cacheWrite (cacheKey env h)]))) := by
  cases hl : h.getLast? with
  | none => exact Or.inl ⟨rfl, by simp [processQuery, hl]⟩
  | some t =>
    cases hcs : t.content with
    | obj j =>
      exact Or.inr (Or.inl ⟨t, j, rfl, hcs, by simp [processQuery, hl, hcs]⟩)
    | str q =>
      have hq : lastQuestionOf h = q := by simp [lastQuestionOf, hl, hcs]
      have hstr : lastIsStr h := ⟨t, hl, by rw [hq]; exact hcs⟩
      have hra : relAnswerOf env h = env.oracle (relevancePrompt env.schema q) := by
        simp [relAnswerOf, relPromptOf, hq]
      have hrp : relPromptOf env h = relevancePrompt env.schema q := by
        simp [relPromptOf, hq]
      cases hge : geminiError (env.oracle (relevancePrompt env.schema q)) with
      | true =>
        refine Or.inr (Or.inr (Or.inl ⟨hstr, by rw [hra]; exact hge, ?_⟩))
        simp [processQuery, hl, hcs, hge, hra, hrp]
      | false =>
        cases hno : strContains (pyUpper (pyStrip (env.oracle (relevancePrompt env.schema q)))) "NO" with
        | true =>
          refine Or.inr (Or.inr (Or.inr (Or.inl
            ⟨hstr, by rw [hra]; exact hge, by rw [hra]; exact hno, ?_⟩)))
          simp [processQuery, hl, hcs, hge, hno, hra, hrp]
        | false =>
          have hgp : gatesPass env h := ⟨hstr, by rw [hra]; exact hge, by rw [hra]; exact hno⟩
          cases hcache : getFromCache st.cache (cacheKey env h) with
          | some c =>
            refine Or.inr (Or.inr (Or.inr (Or.inr (Or.inl ⟨hgp, c, rfl, ?_⟩))))
            simp [processQuery, hl, hcs, hge, hno, hcache, hrp]
          | none =>
            cases hsy : geminiError (synthTextOf env h) with
            | true =>
              refine Or.inr (Or.inr (Or.inr (Or.inr (Or.inr (Or.inl
                ⟨hgp, rfl, rfl, ?_⟩)))))
              simp only [synthTextOf, synthPromptOf] at hsy
              simp [processQuery, hl, hcs, hge, hno, hcache, hsy, hrp,
                    synthTextOf, synthPromptOf]
            | false =>
              have hsy' := hsy
              simp only [synthTextOf, synthPromptOf] at hsy'
              cases hcl : isClarifyOf env h with
              | true =>
                refine Or.inr (Or.inr (Or.inr (Or.inr (Or.inr (Or.inr (Or.inl
                  ⟨hgp, rfl, rfl, rfl, ?_⟩))))))
                have hcl' := hcl
                simp only [isClarifyOf, synthTextOf, synthPromptOf] at hcl'
                simp [processQuery, hl, hcs, hge, hno, hcache, hsy', hcl', hrp,
                      synthTextOf, synthPromptOf]
              | false =>
                have hcl' := hcl
                simp only [isClarifyOf, synthTextOf, synthPromptOf] at hcl'
                cases hdb : env.dbExec (sqlOf env h) with
                | error e =>
                  refine Or.inr (Or.inr (Or.inr (Or.inr (Or.inr (Or.inr (Or.inr (Or.inl
                    ⟨hgp, rfl, rfl, rfl, e, rfl, ?_⟩)))))))
                  have hdb' := hdb
                  simp only [sqlOf, synthTextOf, synthPromptOf] at hdb'
                  simp [processQuery, hl, hcs, hge, hno, hcache, hsy', hcl', hdb', hrp, hq,
                        sqlOf, synthTextOf, synthPromptOf]
                | ok results =>
                  have hdb' := hdb
                  simp only [sqlOf, synthTextOf, synthPromptOf] at hdb'
                  cases results with
                  | nil =>
                    refine Or.inr (Or.inr (Or.inr (Or.inr (Or.inr (Or.inr (Or.inr (Or.inr (Or.inl
                      ⟨hgp, rfl, rfl, rfl, rfl, ?_⟩))))))))
                    simp [processQuery, hl, hcs, hge, hno, hcache, hsy', hcl', hdb', hrp, hq,
                          sqlOf, synthTextOf, synthPromptOf]
                  | cons r rest =>
                    refine Or.inr (Or.inr (Or.inr (Or.inr (Or.inr (Or.inr (Or.inr (Or.inr (Or.inr
                      ⟨hgp, rfl, rfl, rfl, r, rest, rfl, ?_⟩))))))))
                    simp [processQuery, hl, hcs, hge, hno, hcache, hsy', hcl', hdb', hrp, hq,
                          sqlOf, synthTextOf, synthPromptOf]

/- ## Concrete fixtures for witnesses and counterexamples -/

/-- A deterministic test oracle answering each of the six prompt kinds by
its distinctive leading text. -/
def oracleStd (relAns synthAns explainAns vizAns fixAns nrAns : String) :
    String → String :=
  fun p =>
    if strStarts p "Is the following" then relAns
    else if strStarts p "You are a programmatic" then synthAns
    else if strStarts p "Explain this SQL" then explainAns
    else if strStarts p "Given the question" then vizAns
    else if strStarts p "The SQL query" then fixAns
    else if strStarts p "The user asked" then nrAns
    else ""

/-- A one-turn conversation. -/
def hist1 : List Turn := [⟨"user", Content.str "How many?"⟩]

/-- Empty persisted stores. -/
def stEmpty : PipelineState := ⟨[], []⟩

/-- An environment whose database rejects every query. -/
def envErr : Env :=
  { oracle := oracleStd "YES" "SELECT bad" "" "" "FIX IT" ""
    dbExec := fun _ => Except.error "column does not exist"
    schema := "t(a)", hints := "" }

/-- An environment whose database returns zero rows. -/
def envEmptyRows : Env :=
  { oracle := oracleStd "YES" "SELECT 1" "" "" "" "No matching records."
    dbExec := fun _ => Except.ok []
    schema := "t(a)", hints := "" }

/- ## C3: failed execution audits once, repairs once, never re-executes -/

/-- Claim C3: when a synthesized query fails with a database error, the
pipeline appends exactly one audit record (success=false, carrying the DB
error text), makes exactly one repair Oracle call, and returns a terminal
`ErrorResult` with the error and the suggested fix; the trace contains
exactly one database execution, so neither the failing SQL nor the
suggested fix is ever re-executed. -/
theorem claim3_db_error_repair (env : Env) (st : PipelineState) (h : List Turn)
    (e : String)
    (hg : gatesPass env h)
    (hmiss : getFromCache st.cache (cacheKey env h) = none)
    (hsy : geminiError (synthTextOf env h) = false)
    (hcl : isClarifyOf env h = false)
    (hdb : env.dbExec (sqlOf env h) = Except.error e) :
    processQuery env st h =
      (Resp.errorFix e
         (env.oracle (fixPrompt (sqlOf env h) e (lastQuestionOf h) env.schema)),
       ⟨st.cache, st.audit ++ [⟨lastQuestionOf h, sqlOf env h, false, e⟩]⟩,
       [Event.oracleCall (relPromptOf env h), Event.cacheLookup (cacheKey env h),
        Event.oracleCall (synthPromptOf env h), Event.dbExec (sqlOf env h),
        Event.auditAppend ⟨lastQuestionOf h, sqlOf env h, false, e⟩,
        Event.oracleCall (fixPrompt (sqlOf env h) e (lastQuestionOf h) env.schema)]) ∧
    dbCalls
      [Event.oracleCall (relPromptOf env h), Event.cacheLookup (cacheKey env h),
       Event.oracleCall (synthPromptOf env h), Event.dbExec (sqlOf env h),
       Event.auditAppend ⟨lastQuestionOf h, sqlOf env h, false, e⟩,
       Event.oracleCall (fixPrompt (sqlOf env h) e (lastQuestionOf h) env.schema)] = 1 ∧
    oracleCalls
      [Event.oracleCall (relPromptOf env h), Event.cacheLookup (cacheKey env h),
       Event.oracleCall (synthPromptOf env h), Event.dbExec (sqlOf env h),
       Event.auditAppend ⟨lastQuestionOf h, sqlOf env h, false, e⟩,
       Event.oracleCall (fixPrompt (sqlOf env h) e (lastQuestionOf h) env.schema)] = 3 := by
  obtain ⟨⟨t, hl, hcs⟩, hge, hno⟩ := hg
  have hq := hcs
  simp only [relAnswerOf, relPromptOf] at hge hno
  simp only [synthTextOf, synthPromptOf] at hsy
  have hcl' := hcl
  simp only [isClarifyOf, synthTextOf, synthPromptOf] at hcl'
  have hdb' := hdb
  simp only [sqlOf, synthTextOf, synthPromptOf] at hdb'
  refine ⟨?_, rfl, rfl⟩
  simp [processQuery, hl, hcs, hge, hno, hmiss, hsy, hcl', hdb', relPromptOf,
        synthPromptOf, sqlOf, synthTextOf]

/-- Witness for C3 at a concrete failing environment. -/
theorem claim3_witness :
    processQuery envErr stEmpty hist1 =
      (Resp.errorFix "column does not exist"
         (envErr.oracle (fixPrompt (sqlOf envErr hist1) "column does not exist"
            (lastQuestionOf hist1) envErr.schema)),
       ⟨stEmpty.cache,
        stEmpty.audit ++
          [⟨lastQuestionOf hist1, sqlOf envErr hist1, false, "column does not exist"⟩]⟩,
       [Event.oracleCall (relPromptOf envErr hist1),
        Event.cacheLookup (cacheKey envErr hist1),
        Event.oracleCall (synthPromptOf envErr hist1),
        Event.dbExec (sqlOf envErr hist1),
        Event.auditAppend
          ⟨lastQuestionOf hist1, sqlOf envErr hist1, false, "column does not exist"⟩,
        Event.oracleCall (fixPrompt (sqlOf envErr hist1) "column does not exist"
          (lastQuestionOf hist1) envErr.schema)]) ∧
    dbCalls
      [Event.oracleCall (relPromptOf envErr hist1),
       Event.cacheLookup (cacheKey envErr hist1),
       Event.oracleCall (synthPromptOf envErr hist1),
       Event.dbExec (sqlOf envErr hist1),
       Event.auditAppend
         ⟨lastQuestionOf hist1, sqlOf envErr hist1, false, "column does not exist"⟩,
       Event.oracleCall (fixPrompt (sqlOf envErr hist1) "column does not exist"
         (lastQuestionOf hist1) envErr.schema)] = 1 ∧
    oracleCalls
      [Event.oracleCall (relPromptOf envErr hist1),
       Event.cacheLookup (cacheKey envErr hist1),
       Event.oracleCall (synthPromptOf envErr hist1),
       Event.dbExec (sqlOf envErr hist1),
       Event.auditAppend
         ⟨lastQuestionOf hist1, sqlOf envErr hist1, false, "column does not exist"⟩,
       Event.oracleCall (fixPrompt (sqlOf envErr hist1) "column does not exist"
         (lastQuestionOf hist1) envErr.schema)] = 3 :=
  claim3_db_error_repair envErr stEmpty hist1 "column does not exist"
    ⟨⟨_, rfl, rfl⟩, rfl, rfl⟩ rfl rfl rfl rfl

/- ## C4: zero rows audits success and explains, never repairs -/

/-- Claim C4: a query that executes successfully with zero rows appends
one audit record with success=true, makes one Oracle call on the
no-results prompt, and returns a terminal `NoResultsExplanation`; the
trace shows the repair path is never entered (no repair prompt, no
`ErrorResult`). -/
theorem claim4_no_results (env : Env) (st : PipelineState) (h : List Turn)
    (hg : gatesPass env h)
    (hmiss : getFromCache st.cache (cacheKey env h) = none)
    (hsy : geminiError (synthTextOf env h) = false)
    (hcl : isClarifyOf env h = false)
    (hdb : env.dbExec (sqlOf env h) = Except.ok []) :
    processQuery env st h =
      (Resp.noResultsExplanation
         (env.oracle (noResultsPrompt (lastQuestionOf h) (sqlOf env h))),
       ⟨st.cache, st.audit ++ [⟨lastQuestionOf h, sqlOf env h, true, ""⟩]⟩,
       [Event.oracleCall (relPromptOf env h), Event.cacheLookup (cacheKey env h),
        Event.oracleCall (synthPromptOf env h), Event.dbExec (sqlOf env h),
        Event.auditAppend ⟨lastQuestionOf h, sqlOf env h, true, ""⟩,
        Event.oracleCall (noResultsPrompt (lastQuestionOf h) (sqlOf env h))]) := by
  obtain ⟨⟨t, hl, hcs⟩, hge, hno⟩ := hg
  simp only [relAnswerOf, relPromptOf] at hge hno
  simp only [synthTextOf, synthPromptOf] at hsy
  have hcl' := hcl
  simp only [isClarifyOf, synthTextOf, synthPromptOf] at hcl'
  have hdb' := hdb
  simp only [sqlOf, synthTextOf, synthPromptOf] at hdb'
  simp [processQuery, hl, hcs, hge, hno, hmiss, hsy, hcl', hdb', relPromptOf,
        synthPromptOf, sqlOf, synthTextOf]

/-- Witness for C4 at a concrete zero-row environment. -/
theorem claim4_witness :
    processQuery envEmptyRows stEmpty hist1 =
      (Resp.noResultsExplanation
         (envEmptyRows.oracle
            (noResultsPrompt (lastQuestionOf hist1) (sqlOf envEmptyRows hist1))),
       ⟨stEmpty.cache,
        stEmpty.audit ++ [⟨lastQuestionOf hist1, sqlOf envEmptyRows hist1, true, ""⟩]⟩,
       [Event.oracleCall (relPromptOf envEmptyRows hist1),
        Event.cacheLookup (cacheKey envEmptyRows hist1),
        Event.oracleCall (synthPromptOf envEmptyRows hist1),
        Event.dbExec (sqlOf envEmptyRows hist1),
        Event.auditAppend ⟨lastQuestionOf hist1, sqlOf envEmptyRows hist1, true, ""⟩,
        Event.oracleCall
          (noResultsPrompt (lastQuestionOf hist1) (sqlOf envEmptyRows hist1))]) :=
  claim4_no_results envEmptyRows stEmpty hist1
    ⟨⟨_, rfl, rfl⟩, rfl, rfl⟩ rfl rfl rfl rfl

/- ## C9: the NO-answer off-topic short circuit -/

/-- An environment whose relevance answer is a Gemini failure string that
also contains the substring `NO`. -/
def envApiErrNo : Env :=
  { oracle := oracleStd "GEMINI_API_ERROR: NO quota" "" "" "" "" ""
    dbExec := fun _ => Except.ok []
    schema := "t(a)", hints := "" }

/-- Counterexample to C9 as stated: a relevance answer whose normalized
text contains `NO` but which also carries the `GEMINI_API_ERROR` marker is
turned into a 503, not an `OffTopic` result — the error-marker check runs
first in `process_query`. -/
theorem claim9_counterexample :
    strContains (pyUpper (pyStrip (relAnswerOf envApiErrNo hist1))) "NO" = true ∧
    (processQuery envApiErrNo stEmpty hist1).1 =
      Resp.httpError 503 "GEMINI_API_ERROR: NO quota" ∧
    (processQuery envApiErrNo stEmpty hist1).1 ≠ Resp.offTopic offTopicMsg := by
  refine ⟨rfl, rfl, ?_⟩
  intro hm
  have h2 : Resp.httpError 503 "GEMINI_API_ERROR: NO quota" = Resp.offTopic offTopicMsg := hm
  exact Resp.noConfusion h2

/-- Claim C9 (amended): for every relevance answer free of the Gemini
failure markers whose trimmed, upper-cased text contains `NO`, the
pipeline returns a terminal `OffTopic`, leaving the state unchanged and
performing only the one relevance Oracle call — no cache lookup,
synthesis, execution, enrichment, cache write or audit append. -/
theorem claim9_off_topic (env : Env) (st : PipelineState) (h : List Turn)
    (hstr : lastIsStr h)
    (hge : geminiError (relAnswerOf env h) = false)
    (hno : strContains (pyUpper (pyStrip (relAnswerOf env h))) "NO" = true) :
    processQuery env st h =
      (Resp.offTopic offTopicMsg, st, [Event.oracleCall (relPromptOf env h)]) := by
  obtain ⟨t, hl, hcs⟩ := hstr
  simp only [relAnswerOf, relPromptOf] at hge hno
  simp [processQuery, hl, hcs, hge, hno, relPromptOf]

/-- An environment whose relevance answer is a plain `NO`. -/
def envOffTopic : Env :=
  { oracle := oracleStd "NO" "" "" "" "" ""
    dbExec := fun _ => Except.ok []
    schema := "t(a)", hints := "" }

/-- Witness for the amended C9 at a concrete off-topic environment. -/
theorem claim9_witness :
    processQuery envOffTopic stEmpty hist1 =
      (Resp.offTopic offTopicMsg, stEmpty,
       [Event.oracleCall (relPromptOf envOffTopic hist1)]) :=
  claim9_off_topic envOffTopic stEmpty hist1 ⟨_, rfl, rfl⟩ rfl rfl

/- ## C6: the CLARIFY sentinel decoding -/

/-- An environment whose synthesis answer carries the sentinel after a
leading space. -/
def envClar : Env :=
  { oracle := oracleStd "YES" " CLARIFY: what?" "" "" "" ""
    dbExec := fun _ => Except.ok []
    schema := "t(a)", hints := "" }

/-- Counterexample to C6 as stated: for the synthesis text
`" CLARIFY: what?"` (note the leading space), the normalized text begins
with the sentinel, but the returned question is the raw text with its
first 8 characters dropped — `": what?"` — not the remainder after the
sentinel occurrence, which would be `"what?"`: the source slices the
unstripped `response_text`. -/
theorem claim6_counterexample :
    strStarts (pyUpper (pyStrip " CLARIFY: what?")) "CLARIFY:" = true ∧
    pyStrip (strDrop (pyStrip " CLARIFY: what?") 8) = "what?" ∧
    (processQuery envClar stEmpty hist1).1 = Resp.clarification ": what?" ∧
    ": what?" ≠ "what?" := by
  exact ⟨rfl, rfl, rfl, by decide⟩

/-- Claim C6 (amended): when the trimmed, case-folded synthesis text
begins with `CLARIFY:`, the pipeline returns a terminal `Clarification`
whose question is the raw text with its first 8 characters (the sentinel
length) removed and then trimmed — which equals the remainder after the
sentinel exactly when the raw text itself starts with `CLARIFY:` —
leaving cache and audit unchanged. -/
theorem claim6_clarify (env : Env) (st : PipelineState) (h : List Turn)
    (hg : gatesPass env h)
    (hmiss : getFromCache st.cache (cacheKey env h) = none)
    (hsy : geminiError (synthTextOf env h) = false)
    (hcl : isClarifyOf env h = true) :
    processQuery env st h =
      (Resp.clarification (pyStrip (strDrop (synthTextOf env h) 8)), st,
       [Event.oracleCall (relPromptOf env h), Event.cacheLookup (cacheKey env h),
        Event.oracleCall (synthPromptOf env h)]) := by
  obtain ⟨⟨t, hl, hcs⟩, hge, hno⟩ := hg
  simp only [relAnswerOf, relPromptOf] at hge hno
  simp only [synthTextOf, synthPromptOf] at hsy
  have hcl' := hcl
  simp only [isClarifyOf, synthTextOf, synthPromptOf] at hcl'
  simp [processQuery, hl, hcs, hge, hno, hmiss, hsy, hcl', relPromptOf,
        synthPromptOf, synthTextOf]

/-- Witness for the amended C6 at the concrete clarifying environment. -/
theorem claim6_witness :
    processQuery envClar stEmpty hist1 =
      (Resp.clarification (pyStrip (strDrop (synthTextOf envClar hist1) 8)), stEmpty,
       [Event.oracleCall (relPromptOf envClar hist1),
        Event.cacheLookup (cacheKey envClar hist1),
        Event.oracleCall (synthPromptOf envClar hist1)]) :=
  claim6_clarify envClar stEmpty hist1 ⟨⟨_, rfl, rfl⟩, rfl, rfl⟩ rfl rfl rfl

/- ## C8: enrichment parsing and silent degradation -/

/-- An environment whose enrichment answers are a Gemini failure string
(summary) and a JSON array (visualization). -/
def envViz : Env :=
  { oracle := oracleStd "YES" "SELECT x" "GEMINI_API_ERROR: boom" "[1, 2]" "" ""
    dbExec := fun _ => Except.ok [[("c", Json.num "1")]]
    schema := "t(a)", hints := "" }

/-- Counterexample to C8 as stated: the visualization answer `[1, 2]` is
valid JSON but does not match the `ChartSpec` shape, yet it is kept
verbatim as the chart spec instead of degrading to
`{chartNeeded: false}`; and a failed summary call leaves the raw
`GEMINI_API_ERROR:` string as the summary rather than a "no summary"
placeholder.  (The request does still succeed.) -/
theorem claim8_counterexample :
    (processQuery envViz stEmpty hist1).1 =
      Resp.success
        ⟨"How many?", "SELECT x", "GEMINI_API_ERROR: boom",
         [[("c", Json.num "1")]], Json.arr [Json.num "1", Json.num "2"]⟩ ∧
    Json.arr [Json.num "1", Json.num "2"] ≠
      Json.obj [("chart_needed", Json.bool false)] ∧
    "GEMINI_API_ERROR: boom" ≠ "no summary" := by
  refine ⟨rfl, ?_, by decide⟩
  intro hj
  exact Json.noConfusion hj

/-- Claim C8 (amended): in the enrichment stage the visualization answer
is parsed as arbitrary JSON — any successfully parsed value is kept as
the chart spec without shape validation — and only a JSON parse failure
degrades to `{"chart_needed": false}`; the summary is the oracle's raw
answer (including its in-band error strings, with no placeholder); and
enrichment never aborts the request: whenever execution returns at least
one row, a `SuccessResult` is returned and cached, whatever the two
enrichment answers are. -/
theorem claim8_enrichment (env : Env) (st : PipelineState) (h : List Turn)
    (r : Row) (rest : List Row)
    (hg : gatesPass env h)
    (hmiss : getFromCache st.cache (cacheKey env h) = none)
    (hsy : geminiError (synthTextOf env h) = false)
    (hcl : isClarifyOf env h = false)
    (hdb : env.dbExec (sqlOf env h) = Except.ok (r :: rest)) :
    processQuery env st h =
      (Resp.success
         ⟨lastQuestionOf h, sqlOf env h,
          env.oracle (explainPrompt (sqlOf env h)), r :: rest,
          chartSpecOf (env.oracle (vizPrompt (lastQuestionOf h) (keysOf (r :: rest))))⟩,
       ⟨setToCache st.cache (cacheKey env h)
          ⟨lastQuestionOf h, sqlOf env h,
           env.oracle (explainPrompt (sqlOf env h)), r :: rest,
           chartSpecOf (env.oracle (vizPrompt (lastQuestionOf h) (keysOf (r :: rest))))⟩,
        st.audit ++ [⟨lastQuestionOf h, sqlOf env h, true, ""⟩]⟩,
       [Event.oracleCall (relPromptOf env h), Event.cacheLookup (cacheKey env h),
        Event.oracleCall (synthPromptOf env h), Event.dbExec (sqlOf env h),
        Event.auditAppend ⟨lastQuestionOf h, sqlOf env h, true, ""⟩,
        Event.oracleCall (explainPrompt (sqlOf env h)),
        Event.oracleCall (vizPrompt (lastQuestionOf h) (keysOf (r :: rest))),
        Event.cacheWrite (cacheKey env h)]) ∧
    (∀ viz : String, parseJson (pyStrip viz) = none →
      chartSpecOf viz = Json.obj [("chart_needed", Json.bool false)]) := by
  refine ⟨?_, ?_⟩
  · obtain ⟨⟨t, hl, hcs⟩, hge, hno⟩ := hg
    simp only [relAnswerOf, relPromptOf] at hge hno
    simp only [synthTextOf, synthPromptOf] at hsy
    have hcl' := hcl
    simp only [isClarifyOf, synthTextOf, synthPromptOf] at hcl'
    have hdb' := hdb
    simp only [sqlOf, synthTextOf, synthPromptOf] at hdb'
    simp [processQuery, hl, hcs, hge, hno, hmiss, hsy, hcl', hdb', relPromptOf,
          synthPromptOf, sqlOf, synthTextOf]
  · intro viz hparse
    simp [chartSpecOf, hparse]

/-- Witness for the amended C8 at the concrete enrichment environment. -/
theorem claim8_witness :
    (processQuery envViz stEmpty hist1 =
      (Resp.success
         ⟨lastQuestionOf hist1, sqlOf envViz hist1,
          envViz.oracle (explainPrompt (sqlOf envViz hist1)),
          [[("c", Json.num "1")]],
          chartSpecOf (envViz.oracle
            (vizPrompt (lastQuestionOf hist1) (keysOf [[("c", Json.num "1")]])))⟩,
       ⟨setToCache stEmpty.cache (cacheKey envViz hist1)
          ⟨lastQuestionOf hist1, sqlOf envViz hist1,
           envViz.oracle (explainPrompt (sqlOf envViz hist1)),
           [[("c", Json.num "1")]],
           chartSpecOf (envViz.oracle
             (vizPrompt (lastQuestionOf hist1) (keysOf [[("c", Json.num "1")]])))⟩,
        stEmpty.audit ++ [⟨lastQuestionOf hist1, sqlOf envViz hist1, true, ""⟩]⟩,
       [Event.oracleCall (relPromptOf envViz hist1),
        Event.cacheLookup (cacheKey envViz hist1),
        Event.oracleCall (synthPromptOf envViz hist1),
        Event.dbExec (sqlOf envViz hist1),
        Event.auditAppend ⟨lastQuestionOf hist1, sqlOf envViz hist1, true, ""⟩,
        Event.oracleCall (explainPrompt (sqlOf envViz hist1)),
        Event.oracleCall (vizPrompt (lastQuestionOf hist1) (keysOf [[("c", Json.num "1")]])),
        Event.cacheWrite (cacheKey envViz hist1)])) ∧
    (∀ viz : String, parseJson (pyStrip viz) = none →
      chartSpecOf viz = Json.obj [("chart_needed", Json.bool false)]) :=
  claim8_enrichment envViz stEmpty hist1 [("c", Json.num "1")] []
    ⟨⟨_, rfl, rfl⟩, rfl, rfl⟩ rfl rfl rfl rfl

/- ## C7: the SQL candidate extraction -/

/-- Without a triple backtick anywhere, the fence regex cannot match. -/
theorem ffa_none (cs : List Char) (hnf : hasTick3 cs = false) :
    findFenceAux cs = none := by
  induction cs with
  | nil => rfl
  | cons a cs' ih =>
    rcases cs' with _ | ⟨b, _ | ⟨c, rest⟩⟩
    · rfl
    · rfl
    · simp only [hasTick3, Bool.or_eq_false_iff, decide_eq_false_iff_not] at hnf
      simp only [findFenceAux]
      rw [if_neg hnf.1]
      exact ih hnf.2

/-- The bump-along scan skips a non-backtick head character. -/
theorem ffa_cons_ne (a : Char) (l : List Char) (ha : ¬ a = tick) :
    findFenceAux (a :: l) = findFenceAux l := by
  rcases l with _ | ⟨b, _ | ⟨c, rest⟩⟩
  · rfl
  · rfl
  · simp only [findFenceAux]
    rw [if_neg (fun hcon => ha hcon.1)]

/-- A backtick-free leading segment does not affect the fence search. -/
theorem ffa_front (pre xs : List Char) (hp : pre.all (fun c => c != tick) = true) :
    findFenceAux (pre ++ xs) = findFenceAux xs := by
  induction pre with
  | nil => rfl
  | cons a pre' ih =>
    simp only [List.all_cons, Bool.and_eq_true, bne_iff_ne] at hp
    rw [List.cons_append, ffa_cons_ne a _ hp.1]
    exact ih hp.2

/-- A triple backtick survives prepending one character. -/
theorem hasTick3_cons (x : Char) (l : List Char) (hl : hasTick3 l = true) :
    hasTick3 (x :: l) = true := by
  rcases l with _ | ⟨b, _ | ⟨c, rest⟩⟩
  · simp [hasTick3] at hl
  · simp [hasTick3] at hl
  · simp only [hasTick3, Bool.or_eq_true] at hl ⊢
    exact Or.inr hl

/-- A list ending in an explicit fence contains a triple backtick. -/
theorem hasTick3_fence (body post : List Char) :
    hasTick3 (body ++ tick :: tick :: tick :: post) = true := by
  induction body with
  | nil => simp [hasTick3]
  | cons b body' ih => exact hasTick3_cons b _ ih

/-- The captured group keeps a non-backtick head character. -/
theorem takeTo3_cons_ne (b : Char) (l : List Char) (hb : ¬ b = tick)
    (hlen : 2 ≤ l.length) : takeTo3 (b :: l) = b :: takeTo3 l := by
  rcases l with _ | ⟨x, _ | ⟨y, rest⟩⟩
  · simp at hlen
  · simp at hlen
  · simp only [takeTo3]
    rw [if_neg (fun hcon => hb hcon.1)]

/-- The captured group before an explicit closing fence is the body. -/
theorem takeTo3_fence (body post : List Char)
    (hb : body.all (fun c => c != tick) = true) :
    takeTo3 (body ++ tick :: tick :: tick :: post) = body := by
  induction body with
  | nil => simp [takeTo3]
  | cons b body' ih =>
    simp only [List.all_cons, Bool.and_eq_true, bne_iff_ne] at hb
    rw [List.cons_append, takeTo3_cons_ne b _ hb.1 (by simp; omega)]
    rw [ih hb.2]

/-- Claim C7 (amended): a synthesis text without any fenced code block is
used whole as the SQL candidate, and a text of the form
`pre ```sql body ``` post` (backtick-free prefix and body) yields the
block's content as the candidate; in both cases ALL trailing statement
terminators (`;`) are stripped (Python `rstrip(';')` removes every
trailing semicolon, not just one). -/
theorem claim7_extract :
    (∀ s : String, hasTick3 s.data = false → extractSql s = rstripSemis s) ∧
    (∀ pre body post : List Char,
       pre.all (fun c => c != tick) = true →
       body.all (fun c => c != tick) = true →
       extractSql (String.mk (pre ++ tick :: tick :: tick :: 's' :: 'q' :: 'l' ::
           (body ++ tick :: tick :: tick :: post)))
         = rstripSemis (pyStrip (String.mk body))) := by
  constructor
  · intro s hs
    simp [extractSql, ffa_none s.data hs]
  · intro pre body post hp hb
    have h1 : findFenceAux (pre ++ tick :: tick :: tick :: 's' :: 'q' :: 'l' ::
        (body ++ tick :: tick :: tick :: post)) = some body := by
      rw [ffa_front pre _ hp]
      have hd : dropSqlTag ('s' :: 'q' :: 'l' :: (body ++ tick :: tick :: tick :: post))
          = body ++ tick :: tick :: tick :: post := rfl
      simp [findFenceAux, hd, hasTick3_fence body post, takeTo3_fence body post hb]
    simp [extractSql, h1]

/-- Counterexample to C7 as stated: for the fence-free synthesis text
`"SELECT 1;;"` the candidate is `"SELECT 1"` — both trailing semicolons
are removed, where stripping a single trailing terminator would leave
`"SELECT 1;"`. -/
theorem claim7_counterexample :
    hasTick3 ("SELECT 1;;").data = false ∧
    extractSql "SELECT 1;;" = "SELECT 1" ∧
    "SELECT 1" ≠ "SELECT 1;" := by
  exact ⟨by decide, rfl, by decide⟩

/-- Witness for the amended C7: both branches evaluated at concrete texts. -/
theorem claim7_witness :
    (extractSql "SELECT 2" = rstripSemis "SELECT 2") ∧
    (extractSql (String.mk (['x', ' '] ++ tick :: tick :: tick :: 's' :: 'q' :: 'l' ::
        ([' ', 'S', 'E', 'L', ';'] ++ tick :: tick :: tick :: ['z'])))
      = rstripSemis (pyStrip (String.mk [' ', 'S', 'E', 'L', ';']))) :=
  ⟨claim7_extract.1 "SELECT 2" (by decide),
   claim7_extract.2 ['x', ' '] [' ', 'S', 'E', 'L', ';'] ['z'] (by decide) (by decide)⟩

/- ## C2: the relevance check precedes the cache lookup -/

/-- Claim C2: on every request and every cache state, any cache lookup in
the trace occurs strictly after the first event, which is the Oracle call
on the relevance prompt — the relevance check always executes before the
cache lookup, whether or not the cache holds the request's key. -/
theorem claim2_relevance_before_lookup (env : Env) (st : PipelineState) (h : List Turn) :
    ∀ n k, ((processQuery env st h).2.2).get? n = some (Event.cacheLookup k) →
      0 < n ∧ ((processQuery env st h).2.2).get? 0 =
        some (Event.oracleCall (relPromptOf env h)) := by
  rcases pq_cases env st h with
      ⟨-, hout⟩ | ⟨t, j, -, -, hout⟩ | ⟨-, -, hout⟩ | ⟨-, -, -, hout⟩ |
      ⟨-, c, -, hout⟩ | ⟨-, -, -, hout⟩ | ⟨-, -, -, -, hout⟩ |
      ⟨-, -, -, -, e, -, hout⟩ | ⟨-, -, -, -, -, hout⟩ |
      ⟨-, -, -, -, r, rest, -, hout⟩ <;>
    (intro n k hnk
     rw [hout] at hnk ⊢
     rcases n with _ | _ | _ | _ | _ | _ | _ | _ | n <;> simp_all [List.get?])

/-- Claim C5: a request terminating as `OffTopic` or `Clarification`
leaves the persisted state (cache and audit log) unchanged and its trace
contains no cache-write and no audit-append event; moreover, in every run
whatsoever, an audit append only ever appears in a trace that also
contains a database execution — audit records exist only for execution
attempts. -/
theorem claim5_short_circuits (env : Env) (st : PipelineState) (h : List Turn) :
    (isShortCircuit (processQuery env st h).1 = true →
       (processQuery env st h).2.1 = st ∧
       ((processQuery env st h).2.2).all (fun e => !(isWriteEvent e)) = true) ∧
    (∀ rec : AuditRecord, Event.auditAppend rec ∈ (processQuery env st h).2.2 →
       ∃ s, Event.dbExec s ∈ (processQuery env st h).2.2) := by
  rcases pq_cases env st h with
      ⟨-, hout⟩ | ⟨t, j, -, -, hout⟩ | ⟨-, -, hout⟩ | ⟨-, -, -, hout⟩ |
      ⟨-, c, -, hout⟩ | ⟨-, -, -, hout⟩ | ⟨-, -, -, -, hout⟩ |
      ⟨-, -, -, -, e, -, hout⟩ | ⟨-, -, -, -, -, hout⟩ |
      ⟨-, -, -, -, r, rest, -, hout⟩ <;>
    rw [hout] <;>
    refine ⟨fun hsc => ?_, fun rec hmem => ?_⟩ <;>
    simp_all [isShortCircuit, isWriteEvent]

/-- Claim C10: an empty history makes `process_query` fail with the
unhandled `IndexError` of `request.history[-1]` (no Oracle or DB call, no
state change) rather than the 400 validation response; and the 400
`Invalid question format.` response is reachable only when the history is
non-empty and its last turn's content is a dict rather than a string. -/
theorem claim10_empty_history :
    (∀ (env : Env) (st : PipelineState),
       processQuery env st ([] : List Turn) = (Resp.pyIndexError, st, [])) ∧
    (∀ (env : Env) (st : PipelineState) (h : List Turn),
       (processQuery env st h).1 = Resp.httpError 400 "Invalid question format." →
         h ≠ [] ∧ ∃ t j, h.getLast? = some t ∧ t.content = Content.obj j) := by
  refine ⟨fun env st => rfl, fun env st h hresp => ?_⟩
  rcases pq_cases env st h with
      ⟨-, hout⟩ | ⟨t, j, hl, hcs, hout⟩ | ⟨-, -, hout⟩ | ⟨-, -, -, hout⟩ |
      ⟨-, c, -, hout⟩ | ⟨-, -, -, hout⟩ | ⟨-, -, -, -, hout⟩ |
      ⟨-, -, -, -, e, -, hout⟩ | ⟨-, -, -, -, -, hout⟩ |
      ⟨-, -, -, -, r, rest, -, hout⟩ <;>
    rw [hout] at hresp <;> simp_all
  intro he
  subst he
  simp at hl

/-- Claim C1 (amended): replaying a request whose result the first call
returned (and therefore cached) yields the identical `SuccessResult`
payload verbatim and leaves the state unchanged, performing exactly ONE
Oracle call (the always-first relevance check) and zero database calls —
not zero Oracle calls, since the relevance gate precedes the cache
lookup on every request. -/
theorem claim1_cached_replay (env : Env) (st st1 : PipelineState) (h : List Turn)
    (p : SuccessPayload)
    (hfirst : (processQuery env st h).1 = Resp.success p)
    (hst1 : (processQuery env st h).2.1 = st1) :
    processQuery env st1 h =
      (Resp.success p, st1,
       [Event.oracleCall (relPromptOf env h), Event.cacheLookup (cacheKey env h)]) ∧
    oracleCalls
      [Event.oracleCall (relPromptOf env h), Event.cacheLookup (cacheKey env h)] = 1 ∧
    dbCalls
      [Event.oracleCall (relPromptOf env h), Event.cacheLookup (cacheKey env h)] = 0 := by
  rcases pq_cases env st h with
      ⟨-, hout⟩ | ⟨t, j, -, -, hout⟩ | ⟨-, -, hout⟩ | ⟨-, -, -, hout⟩ |
      ⟨hgp, c, hcache, hout⟩ | ⟨-, -, -, hout⟩ | ⟨-, -, -, -, hout⟩ |
      ⟨-, -, -, -, e, -, hout⟩ | ⟨-, -, -, -, -, hout⟩ |
      ⟨hgp, -, -, -, r, rest, hdb, hout⟩
  · rw [hout] at hfirst; simp at hfirst
  · rw [hout] at hfirst; simp at hfirst
  · rw [hout] at hfirst; simp at hfirst
  · rw [hout] at hfirst; simp at hfirst
  · rw [hout] at hfirst hst1
    have hsc : Resp.success c = Resp.success p := hfirst
    injection hsc with hcp
    subst hcp
    have hst' : st = st1 := hst1
    subst hst'
    exact ⟨pq_hit env st h c hgp hcache, rfl, rfl⟩
  · rw [hout] at hfirst; simp at hfirst
  · rw [hout] at hfirst; simp at hfirst
  · rw [hout] at hfirst; simp at hfirst
  · rw [hout] at hfirst; simp at hfirst
  · rw [hout] at hfirst hst1
    have hsc : Resp.success
        ⟨lastQuestionOf h, sqlOf env h,
         env.oracle (explainPrompt (sqlOf env h)), r :: rest,
         chartSpecOf (env.oracle (vizPrompt (lastQuestionOf h) (keysOf (r :: rest))))⟩
        = Resp.success p := hfirst
    injection hsc with hcp
    have hst' : (⟨setToCache st.cache (cacheKey env h)
        ⟨lastQuestionOf h, sqlOf env h,
         env.oracle (explainPrompt (sqlOf env h)), r :: rest,
         chartSpecOf (env.oracle (vizPrompt (lastQuestionOf h) (keysOf (r :: rest))))⟩,
        st.audit ++ [⟨lastQuestionOf h, sqlOf env h, true, ""⟩]⟩ : PipelineState)
        = st1 := hst1
    subst hst'
    refine ⟨pq_hit env _ h p hgp ?_, rfl, rfl⟩
    rw [← hcp]
    exact getFromCache_setToCache st.cache (cacheKey env h) _

/-- Witness for C2 on a concrete run that reaches the cache lookup. -/
theorem claim2_witness :
    0 < 1 ∧ ((processQuery envEmptyRows stEmpty hist1).2.2).get? 0 =
      some (Event.oracleCall (relPromptOf envEmptyRows hist1)) :=
  claim2_relevance_before_lookup envEmptyRows stEmpty hist1 1
    (cacheKey envEmptyRows hist1) rfl

/-- Witness for C5 on a concrete off-topic run. -/
theorem claim5_witness :
    (processQuery envOffTopic stEmpty hist1).2.1 = stEmpty ∧
    ((processQuery envOffTopic stEmpty hist1).2.2).all
      (fun e => !(isWriteEvent e)) = true :=
  (claim5_short_circuits envOffTopic stEmpty hist1).1 rfl

/-- A history whose last turn's content is a dict. -/
def histObj : List Turn := [⟨"user", Content.obj (Json.obj [])⟩]

/-- Witness for C10 on the concrete dict-content request. -/
theorem claim10_witness :
    histObj ≠ [] ∧ ∃ t j, histObj.getLast? = some t ∧ t.content = Content.obj j :=
  claim10_empty_history.2 envOffTopic stEmpty histObj rfl

/- ## C1 fixtures, counterexample and witness -/

/-- A fully successful environment (one row, valid chart-spec JSON). -/
def envOk1 : Env :=
  { oracle := oracleStd "YES" "SELECT 1" "It counts."
      "\x7b\"chart_needed\": false\x7d" "" ""
    dbExec := fun _ => Except.ok [[("c", Json.num "1")]]
    schema := "t(a)", hints := "" }

/-- The payload the successful environment produces. -/
def pW : SuccessPayload :=
  ⟨"How many?", "SELECT 1", "It counts.", [[("c", Json.num "1")]],
   Json.obj [("chart_needed", Json.bool false)]⟩

/-- The persisted state after the first (caching) call. -/
def stAfterFirst : PipelineState := (processQuery envOk1 stEmpty hist1).2.1

/-- Counterexample to C1 as stated: replaying the identical request after
its result was cached does return the stored payload verbatim, but it
performs ONE Oracle call (the relevance check), not zero; and the
zero-Oracle/DB-call property belongs to a non-cache-hit path too (the
empty-history failure), so the pure cache hit is not the only such path. -/
theorem claim1_counterexample :
    getFromCache stAfterFirst.cache (cacheKey envOk1 hist1) = some pW ∧
    (processQuery envOk1 stAfterFirst hist1).1 = Resp.success pW ∧
    oracleCalls ((processQuery envOk1 stAfterFirst hist1).2.2) = 1 ∧
    oracleCalls ((processQuery envOk1 stAfterFirst hist1).2.2) ≠ 0 ∧
    processQuery envOk1 stEmpty ([] : List Turn) = (Resp.pyIndexError, stEmpty, []) :=
  ⟨rfl, rfl, rfl, by decide, rfl⟩

/-- Witness for the amended C1 on the concrete successful environment. -/
theorem claim1_witness :
    processQuery envOk1 stAfterFirst hist1 =
      (Resp.success pW, stAfterFirst,
       [Event.oracleCall (relPromptOf envOk1 hist1),
        Event.cacheLookup (cacheKey envOk1 hist1)]) ∧
    oracleCalls
      [Event.oracleCall (relPromptOf envOk1 hist1),
       Event.cacheLookup (cacheKey envOk1 hist1)] = 1 ∧
    dbCalls
      [Event.oracleCall (relPromptOf envOk1 hist1),
       Event.cacheLookup (cacheKey envOk1 hist1)] = 0 :=
  claim1_cached_replay envOk1 stEmpty stAfterFirst hist1 pW rfl rfl
